import Mathlib

/-!
Shallow embedding of the payment-reconciliation and device-provisioning
engine (canonical variant `src/unnamed/part_000`).  Pure JavaScript
functions become Lean functions; module-level mutable state becomes an
explicit state record threaded through each operation; the single
suspension point of the confirmation handler (the awaited voucher
issuance) splits the handler into a synchronous prefix and a
continuation; randomness (uuid, credential generation, `Date.now()`)
becomes explicit parameters; device I/O outcomes become oracles
`Nat → Bool` indexed by attempt number.
-/

namespace Starlink

/-- The JavaScript regular-expression class `\s` (also the set trimmed by
`Number()` coercion): ASCII whitespace plus the Unicode space characters
recognised by ECMAScript. -/
def isSpaceChar (c : Char) : Bool :=
  c == ' ' || c == '\t' || c == '\n' || c == '\r' || c == '\x0b' || c == '\x0c' ||
  c == '\u00A0' || c == '\u1680' || decide (0x2000 ≤ c.toNat ∧ c.toNat ≤ 0x200A) ||
  c == '\u2028' || c == '\u2029' || c == '\u202F' || c == '\u205F' ||
  c == '\u3000' || c == '\uFEFF'

/-- The longest prefix of decimal-digit characters (`\d*` greedily),
with the remaining characters. -/
def leadingDigits : List Char → List Char × List Char
  | [] => ([], [])
  | c :: cs =>
    if c.isDigit then
      let (d, r) := leadingDigits cs
      (c :: d, r)
    else ([], c :: cs)

/-- The literal `Ar` under the case-insensitive flag of `/…Ar/i`. -/
def startsAr : List Char → Bool
  | a :: r :: _ => (a == 'A' || a == 'a') && (r == 'R' || r == 'r')
  | _ => false

/-- The suffix `\s?Ar` of the amount pattern: the optional whitespace is
tried greedily, and with nothing captured inside, success is exactly the
disjunction of the two alternatives. -/
def tailOk (cs : List Char) : Bool :=
  startsAr cs ||
    (match cs with
     | c :: rest => isSpaceChar c && startsAr rest
     | [] => false)

/-- The greedy, backtracking loop `(?:[ ,]\d{3})*\s?Ar` of the amount
regex: prefer to consume another separator-plus-three-digits group, and
on failure of the continuation fall back to matching `\s?Ar` here.
Returns the capture accumulated so far on success. -/
def groupsThenTail (acc : List Char) : List Char → Option (List Char)
  | s :: d1 :: d2 :: d3 :: rest =>
    if (s == ' ' || s == ',') && d1.isDigit && d2.isDigit && d3.isDigit then
      match groupsThenTail (acc ++ [s, d1, d2, d3]) rest with
      | some cap => some cap
      | none => if tailOk (s :: d1 :: d2 :: d3 :: rest) then some acc else none
    else if tailOk (s :: d1 :: d2 :: d3 :: rest) then some acc else none
  | cs => if tailOk cs then some acc else none

/-- First alternative `\d{1,3}(?:[ ,]\d{3})*` of the capture in
`/(\d{1,3}(?:[ ,]\d{3})*|\d+)\s?Ar/i`.  If the digit run at this
position is longer than 3, every backtracking choice of `\d{1,3}` leaves
a further digit as the next character, which can start neither a group
(`[ ,]` required) nor `\s?Ar`, so the alternative fails; likewise taking
fewer than all the digits of a run of length at most 3 always fails, so
only the full run need be considered. -/
def amountAlt1 (cs : List Char) : Option (List Char) :=
  let (d, r) := leadingDigits cs
  if 1 ≤ d.length ∧ d.length ≤ 3 then groupsThenTail d r else none

/-- Second alternative `\d+` of the amount capture.  Greedy `\d+` can
only succeed by taking the whole digit run: stopping earlier leaves a
digit as the next character, which fails `\s?Ar`. -/
def amountAlt2 (cs : List Char) : Option (List Char) :=
  let (d, r) := leadingDigits cs
  if 1 ≤ d.length ∧ tailOk r = true then some d else none

/-- Ordered alternation at one position: the first alternative is tried
(with all of its backtracking) before the second. -/
def amountMatchAt (cs : List Char) : Option (List Char) :=
  match amountAlt1 cs with
  | some cap => some cap
  | none => amountAlt2 cs

/-- Leftmost match of the amount pattern: positions are tried left to
right, as `String.prototype.match` does. -/
def findAmountCapture : List Char → Option (List Char)
  | [] => none
  | c :: cs =>
    match amountMatchAt (c :: cs) with
    | some cap => some cap
    | none => findAmountCapture cs

/-- `amountMatch[1].replace(/[ ,\.]/g, '')`. -/
def stripGroupSeps (cs : List Char) : List Char :=
  cs.filter (fun c => !(c == ' ' || c == ',' || c == '.'))

/-- Decimal value of a digit character. -/
def digitVal (c : Char) : Nat := c.toNat - 48

/-- Decimal value of a digit string, as `Number()` computes it on a
plain nonempty digit string. -/
def digitsToNat (cs : List Char) : Nat :=
  cs.foldl (fun n c => 10 * n + digitVal c) 0

/-- `message.match(/(\d{1,3}(?:[ ,]\d{3})*|\d+)\s?Ar/i)` followed by
`Number(amountMatch[1].replace(/[ ,\.]/g, ''))`: the captured group is
made of digits and grouping separators only, so after stripping it is a
nonempty digit string and the coercion yields its decimal value. -/
def extractAmount (msg : String) : Option Nat :=
  (findAmountCapture msg.data).map (fun cap => digitsToNat (stripGroupSeps cap))

/-- One position of `/\((0\d{9,10})\)/`: a literal `(`, the captured
`0\d{9,10}`, a literal `)`.  Greedy `\d{9,10}` tries 10 digits then 9;
any shorter take leaves a digit where `)` is required, so the match
succeeds exactly when the digit run after the `0` has length 9 or 10 and
is followed by `)`. -/
def phoneAt : List Char → Option (List Char)
  | '(' :: '0' :: rest =>
    let (d, r) := leadingDigits rest
    if (d.length = 9 ∨ d.length = 10) ∧ r.head? = some ')' then some ('0' :: d)
    else none
  | _ => none

/-- Leftmost match of the phone pattern. -/
def findPhoneCapture : List Char → Option (List Char)
  | [] => none
  | c :: cs =>
    match phoneAt (c :: cs) with
    | some cap => some cap
    | none => findPhoneCapture cs

/-- `phone.replace(/\D/g, '').slice(-9)`: digits only, last nine kept. -/
def normalizePhone (s : String) : String :=
  let digits := s.data.filter Char.isDigit
  String.mk (digits.drop (digits.length - 9))

/-- `/mvola/i.test(sender)` at one position. -/
def mvolaHere (cs : List Char) : Bool :=
  match cs with
  | a :: b :: c :: d :: e :: _ =>
    (a.toLower == 'm') && (b.toLower == 'v') && (c.toLower == 'o') &&
    (d.toLower == 'l') && (e.toLower == 'a')
  | _ => false

/-- `/mvola/i.test(sender)`: a case-insensitive substring search. -/
def mvolaSomewhere : List Char → Bool
  | [] => false
  | c :: cs => mvolaHere (c :: cs) || mvolaSomewhere cs

/-- The sender filter of the confirmation endpoint. -/
def senderIsMvola (s : String) : Bool :=
  mvolaSomewhere s.data

/-- A JavaScript number as it occurs in this program: either `NaN` or a
natural number.  Every amount the program produces is either
`Number(digitString)` (a natural) or `Number(nonNumericString)` (`NaN`);
other numeric shapes never arise on the matching path. -/
inductive JSNum
  | nan
  | num (n : Nat)
deriving DecidableEq, Repr

/-- JavaScript strict equality `===` on numbers: `NaN` is unequal to
everything, including itself. -/
def jsEq : JSNum → JSNum → Bool
  | JSNum.num a, JSNum.num b => a == b
  | _, _ => false

/-- Trim the characters `Number()` ignores at both ends. -/
def trimSpaces (cs : List Char) : List Char :=
  ((cs.dropWhile isSpaceChar).reverse.dropWhile isSpaceChar).reverse

/-- `Number(s)` for the string shapes this program feeds it: whitespace
trims to empty gives `0`, a plain digit string gives its decimal value,
and any other string is coarsened to `NaN`.  (Signed, fractional,
exponent or hexadecimal syntaxes never match a parsed natural
confirmation amount under `===` either, so coarsening them to `NaN`
preserves every observation the engine makes.) -/
def jsToNumber (s : String) : JSNum :=
  let t := trimSpaces s.data
  if t = [] then JSNum.num 0
  else if t.all Char.isDigit then JSNum.num (digitsToNat t)
  else JSNum.nan

/-- `status` field of a purchase session. -/
inductive Status
  | PENDING
  | CONFIRMED
deriving DecidableEq, Repr

/-- One record of `pendingPayments`. -/
structure Payment where
  phone : String
  amount : JSNum
  offer : String
  ref : String
  status : Status
  createdAt : Nat
deriving DecidableEq, Repr

/-- A stored credential pair. -/
structure Voucher where
  username : String
  password : String
deriving DecidableEq, Repr

/-- The two module-level registries.  A JavaScript object with fresh
uuid keys enumerates its keys in insertion order, so each registry is an
association list in insertion order; `sessionId` keys are assumed fresh,
so an insert is an append. -/
structure EngineState where
  pendingPayments : List (String × Payment)
  vouchers : List (String × Voucher)
deriving DecidableEq, Repr

/-- A create-user command written to the device, with its parameters. -/
structure DeviceCmd where
  name : String
  password : String
  profile : String
deriving DecidableEq, Repr

/-- The connection-manager state: the two guard flags `mikrotikReady`
and `reconnecting`, plus a log of the connection attempts made and of
every device command issued (the oracle index of the next attempt). -/
structure MTState where
  ready : Bool
  reconnecting : Bool
  connects : Nat
  writes : List DeviceCmd
deriving DecidableEq, Repr

/-- `safeDisconnect()`: close the transport and clear the ready flag. -/
def safeDisconnect (mt : MTState) : MTState :=
  { mt with ready := false }

/-- `connectMikrotik()`: a no-op if already ready or an attempt is in
flight; otherwise run one connection attempt, whose outcome is
`connectOk` at the current attempt index, setting `mikrotikReady`
accordingly (the `reconnecting` flag is set on entry and cleared in the
`finally`, so across the whole call it is unchanged). -/
def connectMikrotik (connectOk : Nat → Bool) (mt : MTState) : MTState :=
  if mt.ready || mt.reconnecting then mt
  else { mt with ready := connectOk mt.connects, connects := mt.connects + 1 }

/-- `ensureMikrotik()`: connect if not ready, then fail with the
device-unavailable error if still not ready. -/
def ensureMikrotik (connectOk : Nat → Bool) (mt : MTState) :
    Except String Unit × MTState :=
  let mt1 := if !mt.ready then connectMikrotik connectOk mt else mt
  if mt1.ready then (Except.ok (), mt1)
  else (Except.error "MikroTik non disponible", mt1)

/-- Issue one `/ip/hotspot/user/add` write; the outcome is `writeOk` at
the index of this write in the command log, and the command is logged
whether or not the device accepts it. -/
def mtWrite (writeOk : Nat → Bool) (mt : MTState) (cmd : DeviceCmd) :
    Bool × MTState :=
  (writeOk mt.writes.length, { mt with writes := mt.writes ++ [cmd] })

/-- `generateVoucher(profileName)` of the canonical variant: ensure the
connection, issue the create-user command with the generated credentials
(here parameters, standing for the `Math.random()` draws), and on
failure disconnect, ensure again and retry the identical command once;
a second failure propagates. -/
def generateVoucher (connectOk writeOk : Nat → Bool) (mt : MTState)
    (profileName username password : String) :
    Except String Voucher × MTState :=
  match ensureMikrotik connectOk mt with
  | (Except.error e, mt1) => (Except.error e, mt1)
  | (Except.ok _, mt1) =>
    let cmd : DeviceCmd := ⟨username, password, profileName⟩
    let (ok1, mt2) := mtWrite writeOk mt1 cmd
    if ok1 then (Except.ok ⟨username, password⟩, mt2)
    else
      let mt3 := safeDisconnect mt2
      match ensureMikrotik connectOk mt3 with
      | (Except.error e, mt4) => (Except.error e, mt4)
      | (Except.ok _, mt4) =>
        let (ok2, mt5) := mtWrite writeOk mt4 cmd
        if ok2 then (Except.ok ⟨username, password⟩, mt5)
        else (Except.error "MikroTik write failed", mt5)

/-- Result of the intake endpoint: the success JSON or the 400 error. -/
inductive InitResult
  | ok (sessionId ref : String)
  | badRequest
deriving DecidableEq, Repr

/-- `POST /ussd/init`: truthiness check on the three raw fields (an
empty string is falsy), then store a PENDING session under a fresh
`sessionId`; `uuidv4()`, `generateRef()` and `Date.now()` are passed in
as `sessionId`, `ref` and `now`. -/
def ussdInit (st : EngineState) (phone amountRaw offer sessionId ref : String)
    (now : Nat) : InitResult × EngineState :=
  if phone = "" ∨ amountRaw = "" ∨ offer = "" then (InitResult.badRequest, st)
  else
    (InitResult.ok sessionId ref,
     { st with
        pendingPayments := st.pendingPayments ++
          [(sessionId,
            { phone := normalizePhone phone
              amount := jsToNumber amountRaw
              offer := offer
              ref := ref
              status := Status.PENDING
              createdAt := now })] })

/-- The predicate of the matching scan in `/sms/incoming`:
`p.status === 'PENDING' && p.amount === amount && p.phone === smsPhone`. -/
def pendingMatch (amount : Nat) (phone : String) (p : Payment) : Bool :=
  decide (p.status = Status.PENDING) && jsEq p.amount (JSNum.num amount) &&
    decide (p.phone = phone)

/-- The two parses of the confirmation message, in source order (the
handler returns before trying the phone when the amount is absent;
both failures leave the state untouched, so pairing them is
observation-equivalent). -/
def smsParse (message : String) : Option (Nat × String) :=
  match extractAmount message with
  | none => none
  | some a =>
    match findPhoneCapture message.data with
    | none => none
    | some cap => some (a, normalizePhone (String.mk cap))

/-- The `'1h' / '5h' / '24h'` profile map of the confirmation handler. -/
def profileMap : String → Option String
  | "1h" => some "1Heure"
  | "5h" => some "5Heures"
  | "24h" => some "24Heures"
  | _ => none

/-- The matching step of the confirmation handler: the
`Object.keys(pendingPayments).find(...)` scan in insertion order, and —
on a match — the in-place `payment.status = 'CONFIRMED'` mutation.
Returns the matched key and record (as the handler's `payment` local,
already CONFIRMED) together with the updated registry. -/
def smsFind (st : EngineState) (a : Nat) (ph : String) :
    Option (String × Payment) × EngineState :=
  match st.pendingPayments.find? (fun kv => pendingMatch a ph kv.2) with
  | none => (none, st)
  | some (sid, pay) =>
    (some (sid, { pay with status := Status.CONFIRMED }),
     { st with
        pendingPayments := st.pendingPayments.map (fun kv =>
          if kv.1 = sid then (kv.1, { kv.2 with status := Status.CONFIRMED })
          else kv) })

/-- The synchronous prefix of `POST /sms/incoming`, up to (but not
including) the single suspension point `await generateVoucher(...)`:
truthiness and sender checks, both parses, then the matching step. -/
def smsPreAwait (st : EngineState) (sender message : String) :
    Option (String × Payment) × EngineState :=
  if sender = "" ∨ message = "" then (none, st)
  else if !senderIsMvola sender then (none, st)
  else
    match smsParse message with
    | none => (none, st)
    | some (a, ph) => smsFind st a ph

/-- Outcome of one confirmation request: the HTTP status sent to the
transport and the two state components. -/
structure SmsResult where
  resp : Nat
  st : EngineState
  mt : MTState
deriving DecidableEq, Repr

/-- The awaited issuance of `/sms/incoming` and what follows it: the
voucher store on success, and in either outcome the `finally` deletion
of every entry under the matched key. -/
def smsIssue (connectOk writeOk : Nat → Bool) (mt : MTState)
    (st1 : EngineState) (sid profileName username password : String) :
    SmsResult :=
  match generateVoucher connectOk writeOk mt profileName username password with
  | (Except.ok v, mt1) =>
    ⟨200,
     ⟨st1.pendingPayments.filter (fun kv => kv.1 ≠ sid),
      st1.vouchers ++ [(sid, v)]⟩,
     mt1⟩
  | (Except.error _, mt1) =>
    ⟨200,
     ⟨st1.pendingPayments.filter (fun kv => kv.1 ≠ sid), st1.vouchers⟩,
     mt1⟩

/-- The continuation of `/sms/incoming` after a match: resolve the offer
through the profile map — rejecting silently (and keeping the CONFIRMED
session) when unmapped — and otherwise run the issuance. -/
def smsAfterMatch (connectOk writeOk : Nat → Bool) (mt : MTState)
    (st1 : EngineState) (sid : String) (pay : Payment)
    (username password : String) : SmsResult :=
  match profileMap pay.offer with
  | none => ⟨200, st1, mt⟩
  | some prof => smsIssue connectOk writeOk mt st1 sid prof username password

/-- The part of `POST /sms/incoming` that runs once both fields are
present: the synchronous prefix, then the continuation on its outcome.
`username`/`password` are the issuance's random draws. -/
def smsBody (connectOk writeOk : Nat → Bool) (st : EngineState) (mt : MTState)
    (s m username password : String) : SmsResult :=
  match smsPreAwait st s m with
  | (none, st1) => ⟨200, st1, mt⟩
  | (some (sid, pay), st1) =>
    smsAfterMatch connectOk writeOk mt st1 sid pay username password

/-- The whole of `POST /sms/incoming`.  A missing field (`undefined` in
the destructured body) or an empty string is falsy and is acknowledged
at once. -/
def smsIncoming (connectOk writeOk : Nat → Bool) (st : EngineState)
    (mt : MTState) : Option String → Option String → String → String → SmsResult
  | some s, some m, username, password =>
    smsBody connectOk writeOk st mt s m username password
  | _, _, _, _ => ⟨200, st, mt⟩

/-- The sweeper period of `setInterval(..., 60 * 1000)` in milliseconds. -/
def sweepPeriodMs : Nat := 60 * 1000

/-- One tick of the expiry sweeper: delete every entry (the loop carries
no status test) whose age exceeds seven minutes; `Date.now()` is `now`.
Natural subtraction agrees with the JavaScript comparison because a
record created in the future compares not-greater in both readings. -/
def sweepTick (st : EngineState) (now : Nat) : EngineState :=
  { st with
     pendingPayments := st.pendingPayments.filter (fun kv =>
       !(decide (7 * 60 * 1000 < now - kv.2.createdAt))) }

/-! ### Helper lemmas -/

/-- A string is truthy exactly when its character list is nonempty. -/
theorem string_ne_empty_iff {s : String} : s ≠ "" ↔ s.data ≠ [] := by
  constructor
  · intro h hd
    apply h
    cases s with
    | mk data =>
      cases hd
      rfl
  · intro h hd
    apply h
    rw [hd]

/-- A list holding two distinct elements has length at least two. -/
theorem two_le_length_of_mem {α : Type} {l : List α} {a b : α}
    (ha : a ∈ l) (hb : b ∈ l) (hne : a ≠ b) : 2 ≤ l.length := by
  rcases l with _ | ⟨x, xs⟩
  · cases ha
  · rcases List.mem_cons.mp ha with rfl | ha2
    · rcases List.mem_cons.mp hb with rfl | hb2
      · exact absurd rfl hne
      · have := List.length_pos.mpr (List.ne_nil_of_mem hb2)
        simp only [List.length_cons]
        omega
    · have := List.length_pos.mpr (List.ne_nil_of_mem ha2)
      simp only [List.length_cons]
      omega

/-- In an association list with pairwise-distinct keys, an entry is
determined by its key. -/
theorem mem_eq_of_key_nodup {α β : Type} {l : List (α × β)} {x y : α × β}
    (h : (l.map Prod.fst).Nodup) (hx : x ∈ l) (hy : y ∈ l) (hk : x.1 = y.1) :
    x = y := by
  induction l with
  | nil => cases hx
  | cons hd tl ih =>
    rw [List.map_cons, List.nodup_cons] at h
    rcases List.mem_cons.mp hx with rfl | hx2
    · rcases List.mem_cons.mp hy with rfl | hy2
      · rfl
      · exact absurd (List.mem_map.mpr ⟨y, hy2, hk.symm⟩) h.1
    · rcases List.mem_cons.mp hy with rfl | hy2
      · exact absurd (List.mem_map.mpr ⟨x, hx2, hk⟩) h.1
      · exact ih h.2 hx2 hy2

/-- Branch equation: the scan finds nothing. -/
theorem smsFind_of_none {st : EngineState} {a : Nat} {ph : String}
    (h : st.pendingPayments.find? (fun kv => pendingMatch a ph kv.2) = none) :
    smsFind st a ph = (none, st) := by
  unfold smsFind
  rw [h]

/-- Branch equation: the scan finds an entry. -/
theorem smsFind_of_some {st : EngineState} {a : Nat} {ph sid : String}
    {pay : Payment}
    (h : st.pendingPayments.find? (fun kv => pendingMatch a ph kv.2) =
      some (sid, pay)) :
    smsFind st a ph =
      (some (sid, { pay with status := Status.CONFIRMED }),
       { st with
          pendingPayments := st.pendingPayments.map (fun kv =>
            if kv.1 = sid then (kv.1, { kv.2 with status := Status.CONFIRMED })
            else kv) }) := by
  unfold smsFind
  rw [h]

/-- Branch equation: with both fields truthy, a provider sender and a
successful parse, the synchronous prefix is the matching step. -/
theorem smsPreAwait_of_parse {st : EngineState} {s m : String} {a : Nat}
    {ph : String} (hs : s ≠ "") (hm : m ≠ "") (hmv : senderIsMvola s = true)
    (hparse : smsParse m = some (a, ph)) :
    smsPreAwait st s m = smsFind st a ph := by
  unfold smsPreAwait
  rw [if_neg (by push_neg; exact ⟨hs, hm⟩), if_neg (by simp [hmv]), hparse]

/-- The synchronous prefix never touches the voucher store. -/
theorem smsPreAwait_vouchers (st : EngineState) (s m : String) :
    ((smsPreAwait st s m).2).vouchers = st.vouchers := by
  unfold smsPreAwait smsFind
  split
  · rfl
  split
  · rfl
  split
  · rfl
  split
  · rfl
  · rfl

/-- When the synchronous prefix reports no match, it leaves the state
untouched. -/
theorem smsPreAwait_none (st : EngineState) (s m : String)
    (h : (smsPreAwait st s m).1 = none) : (smsPreAwait st s m).2 = st := by
  unfold smsPreAwait smsFind at h ⊢
  split
  · rfl
  split
  · rfl
  split
  · rfl
  split
  · rfl
  · simp_all

/-- Inversion of a successful synchronous prefix: the guards passed,
the parse succeeded, the insertion-order scan found the returned key,
the returned record is the found one marked CONFIRMED, and the new
registry is the old one with every entry of that key marked CONFIRMED. -/
theorem smsPreAwait_some {st : EngineState} {s m : String} {sid : String}
    {pay : Payment} (h : (smsPreAwait st s m).1 = some (sid, pay)) :
    s ≠ "" ∧ m ≠ "" ∧ senderIsMvola s = true ∧
    ∃ a ph pay0, smsParse m = some (a, ph) ∧
      st.pendingPayments.find? (fun kv => pendingMatch a ph kv.2) =
        some (sid, pay0) ∧
      pay = { pay0 with status := Status.CONFIRMED } ∧
      smsPreAwait st s m =
        (some (sid, pay),
         { st with
            pendingPayments := st.pendingPayments.map (fun kv =>
              if kv.1 = sid then (kv.1, { kv.2 with status := Status.CONFIRMED })
              else kv) }) := by
  unfold smsPreAwait smsFind at h
  split at h
  · simp at h
  next hguard =>
  split at h
  · simp at h
  next hmv =>
  split at h
  · simp at h
  next a ph hparse =>
  split at h
  · simp at h
  next sid0 pay0 hfind =>
  simp only [Option.some.injEq, Prod.mk.injEq] at h
  obtain ⟨rfl, rfl⟩ := h
  have hguard2 := hguard
  push_neg at hguard2
  have hmv2 : senderIsMvola s = true := by simpa using hmv
  refine ⟨hguard2.1, hguard2.2, hmv2, a, ph, pay0, hparse, hfind, rfl, ?_⟩
  rw [smsPreAwait_of_parse hguard2.1 hguard2.2 hmv2 hparse, smsFind_of_some hfind]

/-- Branch equation: no match found. -/
theorem smsBody_of_none {st st1 : EngineState} {s m : String}
    {connectOk writeOk : Nat → Bool} {mt : MTState} {username password : String}
    (h : smsPreAwait st s m = (none, st1)) :
    smsBody connectOk writeOk st mt s m username password = ⟨200, st1, mt⟩ := by
  unfold smsBody
  rw [h]

/-- Branch equation: a session was matched. -/
theorem smsBody_of_some {st st1 : EngineState} {s m sid : String}
    {pay : Payment} {connectOk writeOk : Nat → Bool} {mt : MTState}
    {username password : String}
    (h : smsPreAwait st s m = (some (sid, pay), st1)) :
    smsBody connectOk writeOk st mt s m username password =
      smsAfterMatch connectOk writeOk mt st1 sid pay username password := by
  unfold smsBody
  rw [h]

/-- Branch equation: the matched offer is unmapped. -/
theorem smsAfterMatch_of_unmapped {pay : Payment}
    {connectOk writeOk : Nat → Bool} {mt : MTState} {st1 : EngineState}
    {sid username password : String} (h : profileMap pay.offer = none) :
    smsAfterMatch connectOk writeOk mt st1 sid pay username password =
      ⟨200, st1, mt⟩ := by
  unfold smsAfterMatch
  rw [h]

/-- Branch equation: the matched offer maps to a profile. -/
theorem smsAfterMatch_of_mapped {pay : Payment} {prof : String}
    {connectOk writeOk : Nat → Bool} {mt : MTState} {st1 : EngineState}
    {sid username password : String} (h : profileMap pay.offer = some prof) :
    smsAfterMatch connectOk writeOk mt st1 sid pay username password =
      smsIssue connectOk writeOk mt st1 sid prof username password := by
  unfold smsAfterMatch
  rw [h]

/-- Branch equation: issuance succeeded. -/
theorem smsIssue_of_ok {connectOk writeOk : Nat → Bool} {mt mt1 : MTState}
    {st1 : EngineState} {sid prof username password : String} {v : Voucher}
    (h : generateVoucher connectOk writeOk mt prof username password =
      (Except.ok v, mt1)) :
    smsIssue connectOk writeOk mt st1 sid prof username password =
      ⟨200,
       ⟨st1.pendingPayments.filter (fun kv => kv.1 ≠ sid),
        st1.vouchers ++ [(sid, v)]⟩,
       mt1⟩ := by
  unfold smsIssue
  rw [h]

/-- Branch equation: issuance failed. -/
theorem smsIssue_of_error {connectOk writeOk : Nat → Bool} {mt mt1 : MTState}
    {st1 : EngineState} {sid prof username password e : String}
    (h : generateVoucher connectOk writeOk mt prof username password =
      (Except.error e, mt1)) :
    smsIssue connectOk writeOk mt st1 sid prof username password =
      ⟨200,
       ⟨st1.pendingPayments.filter (fun kv => kv.1 ≠ sid), st1.vouchers⟩,
       mt1⟩ := by
  unfold smsIssue
  rw [h]

/-! ### Claim theorems -/

/-- Claim C9: whatever the request body of an inbound confirmation holds
and whatever the processing outcome — rejected sender, parse failure, no
match, unmapped offer, issuance success or failure — the confirmation
endpoint acknowledges with HTTP 200; the handler is moreover a total
function, so no processing error escapes to the transport. -/
theorem c9_always_acknowledges (connectOk writeOk : Nat → Bool)
    (st : EngineState) (mt : MTState) (sender message : Option String)
    (username password : String) :
    (smsIncoming connectOk writeOk st mt sender message username password).resp =
      200 := by
  rcases sender with _ | s
  · rfl
  rcases message with _ | m
  · rfl
  show (smsBody connectOk writeOk st mt s m username password).resp = 200
  rcases hpre : smsPreAwait st s m with ⟨o, st1⟩
  rcases o with _ | ⟨sid, pay⟩
  · rw [smsBody_of_none hpre]
  · rw [smsBody_of_some hpre]
    rcases hmap : profileMap pay.offer with _ | prof
    · rw [smsAfterMatch_of_unmapped hmap]
    · rw [smsAfterMatch_of_mapped hmap]
      rcases hgen : generateVoucher connectOk writeOk mt prof username password
        with ⟨res, mt1⟩
      rcases res with e | v
      · rw [smsIssue_of_error hgen]
      · rw [smsIssue_of_ok hgen]

/-- Claim C7 as stated is false: here the guard flag is set (an attempt
is in flight) and the connect oracle is constantly true, so the
in-flight attempt is bound to succeed; a caller that waited for its
outcome would observe success, yet `ensureMikrotik` returns the
device-unavailable error at once with the state untouched — the caller
does not wait. -/
theorem c7_counterexample :
    ensureMikrotik (fun _ => true) ⟨false, true, 0, []⟩ =
      (Except.error "MikroTik non disponible", ⟨false, true, 0, []⟩) ∧
    connectMikrotik (fun _ => true) ⟨false, true, 0, []⟩ = ⟨false, true, 0, []⟩ :=
  ⟨rfl, rfl⟩

/-- Amended claim C7: when `ensure_ready` runs while a connection
attempt is already in flight (the guard flag is set), no second attempt
is started — the state, in particular the attempt counter, is untouched,
so at most one attempt is ever in flight — but the caller does not wait
for the in-flight attempt: it fails immediately with the
device-unavailable error. -/
theorem c7_guard_no_second_attempt (connectOk : Nat → Bool) (mt : MTState)
    (hflag : mt.reconnecting = true) (hready : mt.ready = false) :
    connectMikrotik connectOk mt = mt ∧
    ensureMikrotik connectOk mt =
      (Except.error "MikroTik non disponible", mt) := by
  unfold ensureMikrotik connectMikrotik
  simp [hflag, hready]

/-- Witness for the amended claim C7 at a concrete in-flight state. -/
theorem c7_guard_no_second_attempt_witness :
    connectMikrotik (fun _ => false) ⟨false, true, 3, []⟩ = ⟨false, true, 3, []⟩ ∧
    ensureMikrotik (fun _ => false) ⟨false, true, 3, []⟩ =
      (Except.error "MikroTik non disponible", ⟨false, true, 3, []⟩) :=
  c7_guard_no_second_attempt (fun _ => false) ⟨false, true, 3, []⟩ rfl rfl

/-- Claim C6 as stated is false: a session whose offer is stored but
unmapped is left in the Registry in CONFIRMED state by the matcher, and
the sweeper loop carries no status test, so once such a session is older
than the window the tick removes it — an action on a CONFIRMED session.
The scenario is built from the engine's own operations. -/
theorem c6_counterexample :
    (smsIncoming (fun _ => true) (fun _ => true)
        (ussdInit ⟨[], []⟩ "0321234567" "1000" "2h" "S1" "R1" 0).2
        ⟨true, false, 0, []⟩ (some "MVOLA")
        (some "Vous avez recu 1000 Ar de (0321234567)") "SD-u" "pw").st.pendingPayments =
      [("S1", ⟨"321234567", JSNum.num 1000, "2h", "R1", Status.CONFIRMED, 0⟩)] ∧
    (sweepTick
        (smsIncoming (fun _ => true) (fun _ => true)
          (ussdInit ⟨[], []⟩ "0321234567" "1000" "2h" "S1" "R1" 0).2
          ⟨true, false, 0, []⟩ (some "MVOLA")
          (some "Vous avez recu 1000 Ar de (0321234567)") "SD-u" "pw").st
        500000).pendingPayments = [] :=
  ⟨rfl, rfl⟩

/-- Amended claim C6: each sweeper tick removes exactly the sessions
whose age exceeds seven minutes, regardless of status — CONFIRMED
sessions present in the Registry are swept like PENDING ones — and every
session within the window survives; the voucher store is untouched. -/
theorem c6_sweep_by_age_only (st : EngineState) (now : Nat)
    (kv : String × Payment) :
    (kv ∈ (sweepTick st now).pendingPayments ↔
      kv ∈ st.pendingPayments ∧ now - kv.2.createdAt ≤ 7 * 60 * 1000) ∧
    (sweepTick st now).vouchers = st.vouchers := by
  constructor
  · simp [sweepTick, List.mem_filter, Nat.not_lt]
  · rfl

/-- Claim C4 as stated is false: the intake endpoint checks only
truthiness of the three fields, so an unrecognized offer (here `"2h"`,
which the confirmation-time profile map rejects) is accepted and stored
rather than failing with a validation error. -/
theorem c4_counterexample :
    (ussdInit ⟨[], []⟩ "0321234567" "1000" "2h" "S1" "R1" 0).1 =
      InitResult.ok "S1" "R1" ∧
    (ussdInit ⟨[], []⟩ "0321234567" "1000" "2h" "S1" "R1" 0).2.pendingPayments =
      [("S1", ⟨"321234567", JSNum.num 1000, "2h", "R1", Status.PENDING, 0⟩)] ∧
    profileMap "2h" = none :=
  ⟨rfl, rfl, rfl⟩

/-- Amended claim C4: creation validates only the presence (truthiness)
of the three fields, so an unrecognized offer is accepted and stored at
creation time; an offer that does not map to a controller-side profile
is rejected silently at confirmation time — the handler acknowledges
with 200, issues no device command and stores no voucher (the state is
exactly the synchronous prefix's, with the device untouched). -/
theorem c4_offer_checked_only_at_confirmation :
    (∀ (st : EngineState) (phone amountRaw offer sid ref : String) (now : Nat),
       phone ≠ "" → amountRaw ≠ "" → offer ≠ "" →
       ussdInit st phone amountRaw offer sid ref now =
         (InitResult.ok sid ref,
          { st with
             pendingPayments := st.pendingPayments ++
               [(sid, ⟨normalizePhone phone, jsToNumber amountRaw, offer, ref,
                       Status.PENDING, now⟩)] })) ∧
    (∀ (connectOk writeOk : Nat → Bool) (st : EngineState) (mt : MTState)
       (s m u p sid : String) (pay : Payment),
       (smsPreAwait st s m).1 = some (sid, pay) →
       profileMap pay.offer = none →
       smsIncoming connectOk writeOk st mt (some s) (some m) u p =
         ⟨200, (smsPreAwait st s m).2, mt⟩) := by
  constructor
  · intro st phone amountRaw offer sid ref now h1 h2 h3
    unfold ussdInit
    rw [if_neg]
    push_neg
    exact ⟨h1, h2, h3⟩
  · intro connectOk writeOk st mt s m u p sid pay hpre hmap
    show smsBody connectOk writeOk st mt s m u p = _
    rcases hx : smsPreAwait st s m with ⟨o, st1⟩
    rw [hx] at hpre
    simp only at hpre
    subst hpre
    rw [smsBody_of_some hx, smsAfterMatch_of_unmapped hmap]

/-- Witness for the amended claim C4: a concrete unrecognized offer is
accepted at creation; a concrete matching confirmation for it is
acknowledged with 200, with no device command and no voucher. -/
theorem c4_offer_checked_only_at_confirmation_witness :
    ussdInit ⟨[], []⟩ "0321234567" "1000" "2h" "S1" "R1" 0 =
      (InitResult.ok "S1" "R1",
       ⟨[("S1", ⟨"321234567", JSNum.num 1000, "2h", "R1", Status.PENDING, 0⟩)],
        []⟩) ∧
    smsIncoming (fun _ => true) (fun _ => true)
        ⟨[("S1", ⟨"321234567", JSNum.num 1000, "2h", "R1", Status.PENDING, 0⟩)],
         []⟩
        ⟨true, false, 0, []⟩ (some "MVOLA")
        (some "Vous avez recu 1000 Ar de (0321234567)") "SD-u" "pw" =
      ⟨200,
       ⟨[("S1", ⟨"321234567", JSNum.num 1000, "2h", "R1", Status.CONFIRMED, 0⟩)],
        []⟩,
       ⟨true, false, 0, []⟩⟩ := by
  constructor
  · exact c4_offer_checked_only_at_confirmation.1 ⟨[], []⟩ "0321234567" "1000"
      "2h" "S1" "R1" 0 (by decide) (by decide) (by decide)
  · have h := c4_offer_checked_only_at_confirmation.2 (fun _ => true)
      (fun _ => true)
      ⟨[("S1", ⟨"321234567", JSNum.num 1000, "2h", "R1", Status.PENDING, 0⟩)], []⟩
      ⟨true, false, 0, []⟩ "MVOLA" "Vous avez recu 1000 Ar de (0321234567)"
      "SD-u" "pw" "S1"
      ⟨"321234567", JSNum.num 1000, "2h", "R1", Status.CONFIRMED, 0⟩
      (by decide) (by decide)
    exact h.trans (by decide)

/-- Claim C1: sessions enter the registry in creation order and
`Date.now()` is monotone, so every reachable registry is sorted by
`createdAt` (the `Pairwise` hypothesis); on such a registry the
insertion-order scan `Object.keys(pendingPayments).find(...)` returns,
among two or more PENDING sessions sharing the confirmation's parsed
(amount, phone) with pairwise-distinct `createdAt` values, exactly the
one with the earliest `createdAt`. -/
theorem c1_oldest_first (l : List (String × Payment)) (a : Nat) (ph : String)
    (hsort : l.Pairwise (fun x y => x.2.createdAt ≤ y.2.createdAt))
    (hdist : l.Pairwise (fun x y =>
      pendingMatch a ph x.2 = true → pendingMatch a ph y.2 = true →
        x.2.createdAt ≠ y.2.createdAt))
    (htwo : 2 ≤ (l.filter (fun kv => pendingMatch a ph kv.2)).length) :
    ∃ kv, l.find? (fun kv => pendingMatch a ph kv.2) = some kv ∧
      pendingMatch a ph kv.2 = true ∧
      ∀ kv2 ∈ l, pendingMatch a ph kv2.2 = true → kv2 ≠ kv →
        kv.2.createdAt < kv2.2.createdAt := by
  induction l with
  | nil => simp at htwo
  | cons hd tl ih =>
    rw [List.pairwise_cons] at hsort hdist
    cases hp : pendingMatch a ph hd.2 with
    | true =>
      refine ⟨hd, ?_, hp, ?_⟩
      · exact List.find?_cons_of_pos tl hp
      · intro kv2 hmem hm2 hne
        rcases List.mem_cons.mp hmem with rfl | hmem2
        · exact absurd rfl hne
        · exact lt_of_le_of_ne (hsort.1 kv2 hmem2) (hdist.1 kv2 hmem2 hp hm2)
    | false =>
      have htwo2 : 2 ≤ (tl.filter (fun kv => pendingMatch a ph kv.2)).length := by
        simpa [List.filter_cons, hp] using htwo
      obtain ⟨kv, hfind, hm, hmin⟩ := ih hsort.2 hdist.2 htwo2
      refine ⟨kv, ?_, hm, ?_⟩
      · rw [List.find?_cons_of_neg tl (by simp [hp]), hfind]
      · intro kv2 hmem hm2 hne
        rcases List.mem_cons.mp hmem with rfl | hmem2
        · rw [hp] at hm2
          cases hm2
        · exact hmin kv2 hmem2 hm2 hne

/-- Witness for claim C1: a registry holding two PENDING sessions with
identical (amount, phone) and distinct creation times; the scan picks
the older one. -/
theorem c1_oldest_first_witness :
    (2 ≤ ([("S1", (⟨"321234567", JSNum.num 1000, "1h", "R1", Status.PENDING,
                    0⟩ : Payment)),
           ("S2", ⟨"321234567", JSNum.num 1000, "1h", "R2", Status.PENDING,
                    5⟩)].filter
            (fun kv => pendingMatch 1000 "321234567" kv.2)).length) ∧
    ∃ kv,
      [("S1", (⟨"321234567", JSNum.num 1000, "1h", "R1", Status.PENDING,
                0⟩ : Payment)),
       ("S2", ⟨"321234567", JSNum.num 1000, "1h", "R2", Status.PENDING,
                5⟩)].find? (fun kv => pendingMatch 1000 "321234567" kv.2) =
          some kv ∧
      pendingMatch 1000 "321234567" kv.2 = true ∧
      ∀ kv2 ∈ [("S1", (⟨"321234567", JSNum.num 1000, "1h", "R1", Status.PENDING,
                        0⟩ : Payment)),
               ("S2", ⟨"321234567", JSNum.num 1000, "1h", "R2", Status.PENDING,
                        5⟩)],
        pendingMatch 1000 "321234567" kv2.2 = true → kv2 ≠ kv →
          kv.2.createdAt < kv2.2.createdAt :=
  ⟨by decide,
   c1_oldest_first _ 1000 "321234567" (by decide) (by decide) (by decide)⟩

/-- Computation of `generateVoucher` when the device starts ready, the
first create-user write fails and the forced reconnection succeeds: the
identical command is issued a second time, one reconnection attempt is
consumed, and the outcome is that of the retried write. -/
theorem generateVoucher_retry_eq (connectOk writeOk : Nat → Bool) (mt : MTState)
    (prof u p : String)
    (hready : mt.ready = true) (hflag : mt.reconnecting = false)
    (hw1 : writeOk mt.writes.length = false)
    (hc : connectOk mt.connects = true) :
    generateVoucher connectOk writeOk mt prof u p =
      (if writeOk (mt.writes.length + 1) then Except.ok ⟨u, p⟩
       else Except.error "MikroTik write failed",
       ⟨true, false, mt.connects + 1,
        mt.writes ++ [⟨u, p, prof⟩, ⟨u, p, prof⟩]⟩) := by
  obtain ⟨r, f, c, w⟩ := mt
  simp only at hready hflag hw1 hc
  subst hready hflag
  unfold generateVoucher ensureMikrotik connectMikrotik mtWrite safeDisconnect
  simp [hw1, hc]
  split
  · simp
  · simp

/-- Claim C2: when the first create-user write fails inside issuance,
the manager is forced disconnected and reconnected (exactly one new
connection attempt), the identical command — same generated username and
password — is written exactly once more, a successful retry returns the
credential pair, and a failed retry propagates the error and leaves
every voucher store untouched, whatever the engine state the enclosing
confirmation handler runs in. -/
theorem c2_single_retry_same_credentials (connectOk writeOk : Nat → Bool)
    (mt : MTState) (prof u p : String)
    (hready : mt.ready = true) (hflag : mt.reconnecting = false)
    (hw1 : writeOk mt.writes.length = false)
    (hc : connectOk mt.connects = true) :
    ((generateVoucher connectOk writeOk mt prof u p).2.writes =
       mt.writes ++ [⟨u, p, prof⟩, ⟨u, p, prof⟩]) ∧
    ((generateVoucher connectOk writeOk mt prof u p).2.connects =
       mt.connects + 1) ∧
    (writeOk (mt.writes.length + 1) = true →
       (generateVoucher connectOk writeOk mt prof u p).1 = Except.ok ⟨u, p⟩) ∧
    (writeOk (mt.writes.length + 1) = false →
       (generateVoucher connectOk writeOk mt prof u p).1 =
         Except.error "MikroTik write failed" ∧
       ∀ (st : EngineState) (sender message : Option String),
         (smsIncoming connectOk writeOk st mt sender message u p).st.vouchers =
           st.vouchers) := by
  have hgen := generateVoucher_retry_eq connectOk writeOk mt prof u p hready
    hflag hw1 hc
  refine ⟨by rw [hgen], by rw [hgen], ?_, ?_⟩
  · intro h2
    rw [hgen]
    simp [h2]
  · intro h2
    constructor
    · rw [hgen]
      simp [h2]
    · intro st sender message
      rcases sender with _ | s
      · rfl
      rcases message with _ | m
      · rfl
      show (smsBody connectOk writeOk st mt s m u p).st.vouchers = st.vouchers
      rcases hpre : smsPreAwait st s m with ⟨o, st1⟩
      have hstv : st1.vouchers = st.vouchers := by
        have hv := smsPreAwait_vouchers st s m
        rw [hpre] at hv
        exact hv
      rcases o with _ | ⟨sid, pay⟩
      · rw [smsBody_of_none hpre]
        exact hstv
      rw [smsBody_of_some hpre]
      rcases hmap : profileMap pay.offer with _ | prof2
      · rw [smsAfterMatch_of_unmapped hmap]
        exact hstv
      rw [smsAfterMatch_of_mapped hmap]
      have hgen2 := generateVoucher_retry_eq connectOk writeOk mt prof2 u p
        hready hflag hw1 hc
      rw [h2] at hgen2
      rw [smsIssue_of_error (by simpa using hgen2)]
      exact hstv

/-- Witness for claim C2 at a concrete ready device whose writes always
fail and whose reconnects always succeed: two identical logged commands,
the propagated failure, and an untouched voucher store even when a
matching session is consumed. -/
theorem c2_single_retry_same_credentials_witness :
    (generateVoucher (fun _ => true) (fun _ => false) ⟨true, false, 0, []⟩
        "1Heure" "SD-ab" "xyz").2.writes =
      [⟨"SD-ab", "xyz", "1Heure"⟩, ⟨"SD-ab", "xyz", "1Heure"⟩] ∧
    (generateVoucher (fun _ => true) (fun _ => false) ⟨true, false, 0, []⟩
        "1Heure" "SD-ab" "xyz").1 = Except.error "MikroTik write failed" ∧
    (smsIncoming (fun _ => true) (fun _ => false)
        ⟨[("S1", ⟨"321234567", JSNum.num 1000, "1h", "R1", Status.PENDING, 0⟩)],
         []⟩
        ⟨true, false, 0, []⟩ (some "MVOLA")
        (some "Vous avez recu 1000 Ar de (0321234567)") "SD-ab"
        "xyz").st.vouchers = [] := by
  have h := c2_single_retry_same_credentials (fun _ => true) (fun _ => false)
    ⟨true, false, 0, []⟩ "1Heure" "SD-ab" "xyz" rfl rfl rfl rfl
  refine ⟨by simpa using h.1, (h.2.2.2 rfl).1, ?_⟩
  have h3 := (h.2.2.2 rfl).2
    ⟨[("S1", ⟨"321234567", JSNum.num 1000, "1h", "R1", Status.PENDING, 0⟩)], []⟩
    (some "MVOLA") (some "Vous avez recu 1000 Ar de (0321234567)")
  simpa using h3

/-- Claim C3 as stated is false on two counts, both exhibited on
concrete reachable states.  First, a matched session whose offer is
unmapped is not removed: it stays in the Registry (marked CONFIRMED).
Second, when two PENDING sessions share (amount, phone), the first
delivery removes only the older one, and a repeat delivery of the
identical confirmation matches the younger — it is not a no-op: it
changes the state again. -/
theorem c3_counterexample :
    (smsIncoming (fun _ => true) (fun _ => true)
        (ussdInit ⟨[], []⟩ "0321234567" "1000" "2h" "S1" "R1" 0).2
        ⟨true, false, 0, []⟩ (some "MVOLA")
        (some "Vous avez recu 1000 Ar de (0321234567)") "SD-u"
        "pw").st.pendingPayments ≠ [] ∧
    (smsIncoming (fun _ => true) (fun _ => true)
        (ussdInit (ussdInit ⟨[], []⟩ "0321234567" "1000" "1h" "S1" "R1" 0).2
          "0321234567" "1000" "1h" "S2" "R2" 5).2
        ⟨true, false, 0, []⟩ (some "MVOLA")
        (some "Vous avez recu 1000 Ar de (0321234567)") "SD-u"
        "pw").st.pendingPayments.length = 1 ∧
    (smsIncoming (fun _ => true) (fun _ => true)
        (smsIncoming (fun _ => true) (fun _ => true)
          (ussdInit (ussdInit ⟨[], []⟩ "0321234567" "1000" "1h" "S1" "R1" 0).2
            "0321234567" "1000" "1h" "S2" "R2" 5).2
          ⟨true, false, 0, []⟩ (some "MVOLA")
          (some "Vous avez recu 1000 Ar de (0321234567)") "SD-u" "pw").st
        ⟨true, false, 0, []⟩ (some "MVOLA")
        (some "Vous avez recu 1000 Ar de (0321234567)") "SD-v"
        "pw2").st.pendingPayments.length = 0 :=
  ⟨by decide, by decide, by decide⟩

/-- Amended claim C3: for a confirmation whose parsed (amount, phone)
matches exactly one PENDING session and whose matched offer maps to a
profile, the session is removed from the Registry afterwards whether
issuance succeeds or fails, and a subsequent delivery of the identical
confirmation finds no matching session and changes no state. -/
theorem c3_unique_match_removed_then_noop (connectOk writeOk : Nat → Bool)
    (st : EngineState) (mt : MTState) (s m u p : String) (a : Nat)
    (ph sid prof : String) (pay : Payment)
    (hparse : smsParse m = some (a, ph))
    (hpre : (smsPreAwait st s m).1 = some (sid, pay))
    (hprof : profileMap pay.offer = some prof)
    (huniq : (st.pendingPayments.filter
        (fun kv => pendingMatch a ph kv.2)).length = 1) :
    (∀ kv ∈ (smsIncoming connectOk writeOk st mt (some s) (some m) u
        p).st.pendingPayments, kv.1 ≠ sid) ∧
    (∀ (cOk2 wOk2 : Nat → Bool) (mt2 : MTState) (u2 p2 : String),
       smsIncoming cOk2 wOk2
           (smsIncoming connectOk writeOk st mt (some s) (some m) u p).st mt2
           (some s) (some m) u2 p2 =
         ⟨200, (smsIncoming connectOk writeOk st mt (some s) (some m) u p).st,
          mt2⟩) := by
  obtain ⟨hs, hm, hmv, a0, ph0, pay0, hparse0, hfind, hpayeq, hpair⟩ :=
    smsPreAwait_some hpre
  rw [hparse] at hparse0
  simp only [Option.some.injEq, Prod.mk.injEq] at hparse0
  obtain ⟨rfl, rfl⟩ := hparse0
  have hrp : (smsIncoming connectOk writeOk st mt (some s) (some m) u
      p).st.pendingPayments =
      (st.pendingPayments.map (fun kv =>
        if kv.1 = sid then (kv.1, { kv.2 with status := Status.CONFIRMED })
        else kv)).filter (fun kv => kv.1 ≠ sid) := by
    show (smsBody connectOk writeOk st mt s m u p).st.pendingPayments = _
    rw [smsBody_of_some hpair, smsAfterMatch_of_mapped hprof]
    rcases hgen : generateVoucher connectOk writeOk mt prof u p with ⟨res, mt1⟩
    rcases res with e | v
    · rw [smsIssue_of_error hgen]
    · rw [smsIssue_of_ok hgen]
  have hfmem : (sid, pay0) ∈ st.pendingPayments := List.mem_of_find?_eq_some hfind
  have hfmatch : pendingMatch a ph pay0 = true := by
    simpa using List.find?_some hfind
  have hnomatch : ∀ kv ∈ (smsIncoming connectOk writeOk st mt (some s) (some m)
      u p).st.pendingPayments, ¬ pendingMatch a ph kv.2 = true := by
    intro kv hkv
    rw [hrp] at hkv
    obtain ⟨hkv2, hneb⟩ := List.mem_filter.mp hkv
    have hne2 : kv.1 ≠ sid := of_decide_eq_true hneb
    obtain ⟨kv0, hkv0, hmark⟩ := List.mem_map.mp hkv2
    have hkveq : kv = kv0 := by
      by_cases hcase : kv0.1 = sid
      · exfalso
        apply hne2
        rw [← hmark, if_pos hcase]
        exact hcase
      · rw [if_neg hcase] at hmark
        exact hmark.symm
    subst hkveq
    intro hmatch
    have h1 : kv ∈ st.pendingPayments.filter
        (fun kv => pendingMatch a ph kv.2) :=
      List.mem_filter.mpr ⟨hkv0, hmatch⟩
    have h2 : (sid, pay0) ∈ st.pendingPayments.filter
        (fun kv => pendingMatch a ph kv.2) :=
      List.mem_filter.mpr ⟨hfmem, hfmatch⟩
    have hne3 : kv ≠ (sid, pay0) := by
      intro h
      apply hne2
      rw [h]
    have := two_le_length_of_mem h1 h2 hne3
    omega
  refine ⟨?_, ?_⟩
  · intro kv hkv
    rw [hrp] at hkv
    exact of_decide_eq_true (List.mem_filter.mp hkv).2
  · intro cOk2 wOk2 mt2 u2 p2
    have hfind2 : ((smsIncoming connectOk writeOk st mt (some s) (some m) u
        p).st).pendingPayments.find? (fun kv => pendingMatch a ph kv.2) =
        none :=
      List.find?_eq_none.mpr (fun x hx => by simpa using hnomatch x hx)
    have hpre2 : smsPreAwait (smsIncoming connectOk writeOk st mt (some s)
        (some m) u p).st s m =
        (none, (smsIncoming connectOk writeOk st mt (some s) (some m) u p).st)
        := by
      rw [smsPreAwait_of_parse hs hm hmv hparse, smsFind_of_none hfind2]
    show smsBody cOk2 wOk2 _ mt2 s m u2 p2 = _
    rw [smsBody_of_none hpre2]

/-- Witness for the amended claim C3: a registry holding exactly one
matching PENDING session with a mapped offer; after the confirmation the
session is gone and the identical confirmation is a no-op. -/
theorem c3_unique_match_removed_then_noop_witness :
    (∀ kv ∈ (smsIncoming (fun _ => true) (fun _ => true)
        ⟨[("S1", ⟨"321234567", JSNum.num 1000, "1h", "R1", Status.PENDING, 0⟩)],
         []⟩
        ⟨true, false, 0, []⟩ (some "MVOLA")
        (some "Vous avez recu 1000 Ar de (0321234567)") "SD-u"
        "pw").st.pendingPayments, kv.1 ≠ "S1") ∧
    (∀ (cOk2 wOk2 : Nat → Bool) (mt2 : MTState) (u2 p2 : String),
       smsIncoming cOk2 wOk2
           (smsIncoming (fun _ => true) (fun _ => true)
             ⟨[("S1", ⟨"321234567", JSNum.num 1000, "1h", "R1", Status.PENDING,
                       0⟩)],
              []⟩
             ⟨true, false, 0, []⟩ (some "MVOLA")
             (some "Vous avez recu 1000 Ar de (0321234567)") "SD-u" "pw").st
           mt2 (some "MVOLA") (some "Vous avez recu 1000 Ar de (0321234567)")
           u2 p2 =
         ⟨200,
          (smsIncoming (fun _ => true) (fun _ => true)
            ⟨[("S1", ⟨"321234567", JSNum.num 1000, "1h", "R1", Status.PENDING,
                      0⟩)],
             []⟩
            ⟨true, false, 0, []⟩ (some "MVOLA")
            (some "Vous avez recu 1000 Ar de (0321234567)") "SD-u" "pw").st,
          mt2⟩) :=
  c3_unique_match_removed_then_noop (fun _ => true) (fun _ => true)
    ⟨[("S1", ⟨"321234567", JSNum.num 1000, "1h", "R1", Status.PENDING, 0⟩)], []⟩
    ⟨true, false, 0, []⟩ "MVOLA" "Vous avez recu 1000 Ar de (0321234567)"
    "SD-u" "pw" 1000 "321234567" "S1" "1Heure"
    ⟨"321234567", JSNum.num 1000, "1h", "R1", Status.CONFIRMED, 0⟩
    (by decide) (by decide) (by decide) (by decide)

/-- Claim C5: the matched session is marked CONFIRMED by the synchronous
prefix of the handler — before the issuance suspension point — so while
the first issuance is still blocked on device I/O, a second notification
(identical or not) processed against the intermediate registry can never
select the same session again: the PENDING filter excludes it.  Hence at
most one confirmation consumes any given session. -/
theorem c5_no_double_consume (st : EngineState) (s m : String) (sid : String)
    (pay : Payment) (hpre : (smsPreAwait st s m).1 = some (sid, pay)) :
    (∀ kv ∈ ((smsPreAwait st s m).2).pendingPayments, kv.1 = sid →
       kv.2.status = Status.CONFIRMED) ∧
    (∀ (s2 m2 : String) (t : String × Payment),
       (smsPreAwait ((smsPreAwait st s m).2) s2 m2).1 = some t → t.1 ≠ sid) := by
  obtain ⟨hs, hm, hmv, a, ph, pay0, hparse, hfind, hpayeq, hpair⟩ :=
    smsPreAwait_some hpre
  have hconf : ∀ kv ∈ ((smsPreAwait st s m).2).pendingPayments, kv.1 = sid →
      kv.2.status = Status.CONFIRMED := by
    intro kv hkv hkey
    rw [hpair] at hkv
    obtain ⟨kv0, hkv0, hmark⟩ := List.mem_map.mp hkv
    by_cases hcase : kv0.1 = sid
    · rw [if_pos hcase] at hmark
      rw [← hmark]
    · rw [if_neg hcase] at hmark
      subst hmark
      exact absurd hkey hcase
  refine ⟨hconf, ?_⟩
  intro s2 m2 t h2 hteq
  obtain ⟨-, -, -, a2, ph2, t0, hparse2, hfind2, hteq0, -⟩ :=
    smsPreAwait_some h2
  have hmem : (t.1, t0) ∈ ((smsPreAwait st s m).2).pendingPayments :=
    List.mem_of_find?_eq_some hfind2
  have hmatch : pendingMatch a2 ph2 t0 = true := by
    simpa using List.find?_some hfind2
  have hpend : t0.status = Status.PENDING := by
    simp only [pendingMatch, Bool.and_eq_true, decide_eq_true_eq] at hmatch
    exact hmatch.1.1
  have hcf := hconf (t.1, t0) hmem hteq
  rw [hpend] at hcf
  cases hcf

/-- Witness for claim C5: a concrete matched session, whose registry
entry is CONFIRMED before any device I/O and which no further
notification can select. -/
theorem c5_no_double_consume_witness :
    (∀ kv ∈ ((smsPreAwait
        ⟨[("S1", ⟨"321234567", JSNum.num 1000, "1h", "R1", Status.PENDING, 0⟩)],
         []⟩
        "MVOLA" "Vous avez recu 1000 Ar de (0321234567)").2).pendingPayments,
       kv.1 = "S1" → kv.2.status = Status.CONFIRMED) ∧
    (∀ (s2 m2 : String) (t : String × Payment),
       (smsPreAwait ((smsPreAwait
           ⟨[("S1", ⟨"321234567", JSNum.num 1000, "1h", "R1", Status.PENDING,
                     0⟩)],
            []⟩
           "MVOLA" "Vous avez recu 1000 Ar de (0321234567)").2) s2 m2).1 =
         some t → t.1 ≠ "S1") :=
  c5_no_double_consume
    ⟨[("S1", ⟨"321234567", JSNum.num 1000, "1h", "R1", Status.PENDING, 0⟩)], []⟩
    "MVOLA" "Vous avez recu 1000 Ar de (0321234567)" "S1"
    ⟨"321234567", JSNum.num 1000, "1h", "R1", Status.CONFIRMED, 0⟩
    (by decide)

/-- Claim C8: the amount pattern accepts grouping separators adjacent to
the currency marker and strips them before parsing — `1,000 Ar` yields
1000 and `12 345 Ar` yields 12345 — and a message in which no amount is
adjacent to the currency marker makes the whole confirmation a no-op:
the handler acknowledges 200 and leaves both state components exactly as
they were. -/
theorem c8_amount_grouping :
    extractAmount "Vous avez recu 1,000 Ar de (0321234567)" = some 1000 ∧
    extractAmount "Paiement de 12 345 Ar effectue" = some 12345 ∧
    extractAmount "Vous avez recu de (0321234567)" = none ∧
    ∀ (connectOk writeOk : Nat → Bool) (st : EngineState) (mt : MTState)
      (s m u p : String),
      extractAmount m = none →
      smsIncoming connectOk writeOk st mt (some s) (some m) u p =
        ⟨200, st, mt⟩ := by
  refine ⟨by decide, by decide, by decide, ?_⟩
  intro connectOk writeOk st mt s m u p hm
  have hparse : smsParse m = none := by
    unfold smsParse
    rw [hm]
  have hpre : smsPreAwait st s m = (none, st) := by
    unfold smsPreAwait
    split
    · rfl
    split
    · rfl
    rw [hparse]
  show smsBody connectOk writeOk st mt s m u p = _
  rw [smsBody_of_none hpre]

/-- Witness for claim C8: a concrete amountless confirmation is a
no-op. -/
theorem c8_amount_grouping_witness :
    extractAmount "Vous avez recu de (0321234567)" = none ∧
    smsIncoming (fun _ => true) (fun _ => true)
        ⟨[("S1", ⟨"321234567", JSNum.num 1000, "1h", "R1", Status.PENDING, 0⟩)],
         []⟩
        ⟨true, false, 0, []⟩ (some "MVOLA")
        (some "Vous avez recu de (0321234567)") "SD-u" "pw" =
      ⟨200,
       ⟨[("S1", ⟨"321234567", JSNum.num 1000, "1h", "R1", Status.PENDING, 0⟩)],
        []⟩,
       ⟨true, false, 0, []⟩⟩ :=
  ⟨by decide,
   c8_amount_grouping.2.2.2 (fun _ => true) (fun _ => true)
     ⟨[("S1", ⟨"321234567", JSNum.num 1000, "1h", "R1", Status.PENDING, 0⟩)], []⟩
     ⟨true, false, 0, []⟩ "MVOLA" "Vous avez recu de (0321234567)" "SD-u" "pw"
     (by decide)⟩

/-- `Number()` on a truthy string with no digit and no whitespace
character is `NaN`: the trim is the identity, the residue is nonempty
and not a digit string.  (On the JavaScript side such a string is
non-numeric — the digitless numeric literals are exactly the `Infinity`
forms, excluded separately by the callers below.) -/
theorem jsToNumber_nan_of (s : String) (hne : s ≠ "")
    (hchars : ∀ c ∈ s.data, c.isDigit = false ∧ isSpaceChar c = false) :
    jsToNumber s = JSNum.nan := by
  have hdata : s.data ≠ [] := string_ne_empty_iff.mp hne
  have hnospace : ∀ c ∈ s.data, isSpaceChar c = false := fun c hc =>
    (hchars c hc).2
  have htrim : trimSpaces s.data = s.data := by
    unfold trimSpaces
    have h1 : s.data.dropWhile isSpaceChar = s.data := by
      cases hd : s.data with
      | nil => rfl
      | cons c t =>
        rw [List.dropWhile_cons, if_neg]
        simp [hnospace c (by rw [hd]; exact List.mem_cons_self c t)]
    rw [h1]
    have h2 : s.data.reverse.dropWhile isSpaceChar = s.data.reverse := by
      cases hd : s.data.reverse with
      | nil => rfl
      | cons c t =>
        rw [List.dropWhile_cons, if_neg]
        have hc : c ∈ s.data := by
          rw [← List.mem_reverse, hd]
          exact List.mem_cons_self c t
        simp [hnospace c hc]
    rw [h2, List.reverse_reverse]
  have hall : s.data.all Char.isDigit = false := by
    cases hd : s.data with
    | nil => exact absurd hd hdata
    | cons c t =>
      have hcd : c.isDigit = false :=
        (hchars c (by rw [hd]; exact List.mem_cons_self c t)).1
      simp [List.all_cons, hcd]
  simp only [jsToNumber]
  rw [htrim, if_neg hdata, if_neg (by simp [hall])]

/-- Claim C10: intake performs no numeric validation — any truthy
amount string is accepted and coerced, a non-numeric one (truthy, no
digit or space character, not an `Infinity` form) to `NaN` — and a
session stored with `NaN` can never be matched, because `NaN` is
strictly unequal to every parsed confirmation amount; such a session is
never selected nor removed by the confirmation handler and leaves the
Registry only when the sweeper expires it. -/
theorem c10_nan_never_matches (s : String) (hne : s ≠ "")
    (hchars : ∀ c ∈ s.data, c.isDigit = false ∧ isSpaceChar c = false)
    (hinf : s ≠ "Infinity" ∧ s ≠ "+Infinity" ∧ s ≠ "-Infinity") :
    jsToNumber s = JSNum.nan ∧
    (∀ (st : EngineState) (phone offer sid ref : String) (now : Nat),
       phone ≠ "" → offer ≠ "" →
       ussdInit st phone s offer sid ref now =
         (InitResult.ok sid ref,
          { st with
             pendingPayments := st.pendingPayments ++
               [(sid, ⟨normalizePhone phone, JSNum.nan, offer, ref,
                       Status.PENDING, now⟩)] })) ∧
    (∀ (a : Nat) (ph : String) (p : Payment),
       p.amount = JSNum.nan → pendingMatch a ph p = false) ∧
    (∀ (connectOk writeOk : Nat → Bool) (st : EngineState) (mt : MTState)
       (sender message : Option String) (u pw : String) (kv : String × Payment),
       (st.pendingPayments.map Prod.fst).Nodup →
       kv ∈ st.pendingPayments → kv.2.amount = JSNum.nan →
       kv ∈ (smsIncoming connectOk writeOk st mt sender message u
         pw).st.pendingPayments) ∧
    (∀ (st : EngineState) (now : Nat) (kv : String × Payment),
       kv ∈ st.pendingPayments → 7 * 60 * 1000 < now - kv.2.createdAt →
       kv ∉ (sweepTick st now).pendingPayments) := by
  have hnan : jsToNumber s = JSNum.nan := jsToNumber_nan_of s hne hchars
  refine ⟨hnan, ?_, ?_, ?_, ?_⟩
  · intro st phone offer sid ref now h1 h2
    unfold ussdInit
    rw [if_neg (by push_neg; exact ⟨h1, hne, h2⟩), hnan]
  · intro a ph p hp
    simp [pendingMatch, jsEq, hp]
  · intro connectOk writeOk st mt sender message u pw kv hnd hmem hnan2
    rcases sender with _ | s2
    · exact hmem
    rcases message with _ | m2
    · exact hmem
    show kv ∈ (smsBody connectOk writeOk st mt s2 m2 u pw).st.pendingPayments
    rcases hpre : smsPreAwait st s2 m2 with ⟨o, st1⟩
    rcases o with _ | ⟨sid, pay⟩
    · rw [smsBody_of_none hpre]
      have hst1 : st1 = st := by
        have h4 := smsPreAwait_none st s2 m2 (by rw [hpre])
        rw [hpre] at h4
        exact h4
      rw [hst1]
      exact hmem
    · obtain ⟨-, -, -, a, ph, pay0, hparse, hfind, hpayeq, hpair⟩ :=
        smsPreAwait_some (show (smsPreAwait st s2 m2).1 = some (sid, pay) by
          rw [hpre])
      have hfmem : (sid, pay0) ∈ st.pendingPayments :=
        List.mem_of_find?_eq_some hfind
      have hfmatch : pendingMatch a ph pay0 = true := by
        simpa using List.find?_some hfind
      have hknot : kv.1 ≠ sid := by
        intro hk
        have heq : kv = (sid, pay0) :=
          mem_eq_of_key_nodup hnd hmem hfmem (by rw [hk])
        have hje : jsEq pay0.amount (JSNum.num a) = true := by
          simp only [pendingMatch, Bool.and_eq_true] at hfmatch
          exact hfmatch.1.2
        rw [heq] at hnan2
        rw [show (sid, pay0).2.amount = pay0.amount from rfl] at hnan2
        rw [hnan2] at hje
        cases hje
      have hst1 : st1 =
          { st with
             pendingPayments := st.pendingPayments.map (fun kv =>
               if kv.1 = sid then
                 (kv.1, { kv.2 with status := Status.CONFIRMED })
               else kv) } := by
        rw [hpre] at hpair
        exact congrArg Prod.snd hpair
      have hkv1 : kv ∈ st1.pendingPayments := by
        rw [hst1]
        exact List.mem_map.mpr ⟨kv, hmem, by rw [if_neg hknot]⟩
      rw [smsBody_of_some hpre]
      rcases hmap : profileMap pay.offer with _ | prof
      · rw [smsAfterMatch_of_unmapped hmap]
        exact hkv1
      · rw [smsAfterMatch_of_mapped hmap]
        rcases hgen : generateVoucher connectOk writeOk mt prof u pw with
          ⟨res, mt1⟩
        rcases res with e | v
        · rw [smsIssue_of_error hgen]
          exact List.mem_filter.mpr ⟨hkv1, by simp [hknot]⟩
        · rw [smsIssue_of_ok hgen]
          exact List.mem_filter.mpr ⟨hkv1, by simp [hknot]⟩
  · intro st now kv hmem hold
    simp [sweepTick, List.mem_filter, hold]

/-- Witness for claim C10 at the concrete non-numeric amount `"abc"`:
the stored session carries `NaN`, survives a well-formed matching
confirmation untouched, and is removed by a sweeper tick once old. -/
theorem c10_nan_never_matches_witness :
    jsToNumber "abc" = JSNum.nan ∧
    ussdInit ⟨[], []⟩ "0321234567" "abc" "1h" "S1" "R1" 0 =
      (InitResult.ok "S1" "R1",
       ⟨[("S1", ⟨"321234567", JSNum.nan, "1h", "R1", Status.PENDING, 0⟩)], []⟩) ∧
    pendingMatch 1000 "321234567"
      ⟨"321234567", JSNum.nan, "1h", "R1", Status.PENDING, 0⟩ = false ∧
    ("S1", (⟨"321234567", JSNum.nan, "1h", "R1", Status.PENDING,
            0⟩ : Payment)) ∈
      (smsIncoming (fun _ => true) (fun _ => true)
        ⟨[("S1", ⟨"321234567", JSNum.nan, "1h", "R1", Status.PENDING, 0⟩)], []⟩
        ⟨true, false, 0, []⟩ (some "MVOLA")
        (some "Vous avez recu 1000 Ar de (0321234567)") "SD-u"
        "pw").st.pendingPayments ∧
    ("S1", (⟨"321234567", JSNum.nan, "1h", "R1", Status.PENDING,
            0⟩ : Payment)) ∉
      (sweepTick
        ⟨[("S1", ⟨"321234567", JSNum.nan, "1h", "R1", Status.PENDING, 0⟩)], []⟩
        500000).pendingPayments := by
  have h := c10_nan_never_matches "abc" (by decide) (by decide)
    ⟨by decide, by decide, by decide⟩
  refine ⟨h.1, ?_, h.2.2.1 1000 "321234567" _ rfl, ?_, ?_⟩
  · exact (h.2.1 ⟨[], []⟩ "0321234567" "1h" "S1" "R1" 0 (by decide) (by decide))
  · exact h.2.2.2.1 (fun _ => true) (fun _ => true)
      ⟨[("S1", ⟨"321234567", JSNum.nan, "1h", "R1", Status.PENDING, 0⟩)], []⟩
      ⟨true, false, 0, []⟩ (some "MVOLA")
      (some "Vous avez recu 1000 Ar de (0321234567)") "SD-u" "pw"
      ("S1", ⟨"321234567", JSNum.nan, "1h", "R1", Status.PENDING, 0⟩)
      (by decide) (by decide) rfl
  · exact h.2.2.2.2
      ⟨[("S1", ⟨"321234567", JSNum.nan, "1h", "R1", Status.PENDING, 0⟩)], []⟩
      500000 ("S1", ⟨"321234567", JSNum.nan, "1h", "R1", Status.PENDING, 0⟩)
      (by decide) (by decide)

end Starlink
